import Mathlib

/-!
Verification development for the guidelines-extraction service.

Shallow embedding of the orchestration core of the repository:
the session store (`guidelines_agent/core/session_store.py`), the
persistence layer (`persist_guidelines.py`), the guideline repository
(`guidelines_agent/models/repositories/guideline_repository.py`), the
service layer (`guidelines_agent/services/`), the provider gateway
(`guidelines_agent/core/llm_providers.py`), the query planner
(`guidelines_agent/core/query_planner.py`) and the extraction entry
point (`guidelines_agent/core/extract.py`).

External collaborators (the text-generation backends, the embedding
service, Python's `json.loads`, and the langchain memory class) enter
the model either as explicit outcome parameters or, for the langchain
window memory, as a faithful transcription of the library's documented
list semantics.  Wall-clock time is threaded explicitly as an integer
`now` parameter wherever the Python code calls `time.time()`.
-/

/-! ### Session store (`guidelines_agent/core/session_store.py`) -/

/-- A single chat message held by the langchain conversation memory:
either a human (user) message or an AI message, with its text content. -/
inductive ChatMessage
  | human (content : String)
  | ai (content : String)
deriving DecidableEq

/-- The langchain `ConversationBufferWindowMemory` used by
`SessionStore.create_session`: a growing list of messages together with
the window parameter `k`.  In langchain, `save_context` appends the
human message and the AI message to `chat_memory.messages`, and the
exposed buffer is `chat_memory.messages[-self.k * 2 :]` when `k > 0`
(the last `k` human/AI exchanges, i.e. `2 * k` messages) and `[]` when
`k = 0`. -/
structure ConversationBufferWindowMemory where
  k : Nat
  messages : List ChatMessage
deriving DecidableEq

/-- Langchain `save_context({"input": q}, {"output": a})`: appends the
human message and then the AI message to the stored message list. -/
def ConversationBufferWindowMemory.save_context
    (m : ConversationBufferWindowMemory) (input output : String) :
    ConversationBufferWindowMemory :=
  { m with messages := m.messages ++ [ChatMessage.human input, ChatMessage.ai output] }

/-- Langchain buffer window: `messages[-k*2:] if k > 0 else []`, i.e. the
last `2 * k` stored messages.  This is what
`SessionStore.get_conversation_history` formats into the prompt. -/
def ConversationBufferWindowMemory.buffer_as_messages
    (m : ConversationBufferWindowMemory) : List ChatMessage :=
  if 0 < m.k then m.messages.drop (m.messages.length - 2 * m.k) else []

/-- Session record stored in the session dictionary
(`SessionInfo` dataclass in `session_store.py`).  Timestamps are the
values of `time.time()`, modelled as integers; the open-ended `context`
dictionary is modelled as a string-keyed association list. -/
structure SessionInfo where
  session_id : String
  created_at : Int
  last_accessed : Int
  memory : ConversationBufferWindowMemory
  context : List (String × String)
deriving DecidableEq

/-- The in-memory session store: the `_sessions` dictionary (an ordered
association list, matching Python dict iteration order) plus the
`_session_timeout` and `_max_sessions` configuration. -/
structure SessionStore where
  sessions : List (String × SessionInfo)
  session_timeout : Int
  max_sessions : Nat
deriving DecidableEq

/-- Dictionary read `d[k]` / `k in d` for the `_sessions` map. -/
def dictGet {α : Type} : List (String × α) → String → Option α
  | [], _ => none
  | p :: l, k => if p.1 = k then some p.2 else dictGet l k

/-- Dictionary update `d[k] = v` for a key already present: replaces the
value stored at that key, keeping insertion order. -/
def dictSet {α : Type} (l : List (String × α)) (k : String) (v : α) :
    List (String × α) :=
  l.map (fun p => if p.1 = k then (p.1, v) else p)

/-- Dictionary deletion `del d[k]`. -/
def dictDel {α : Type} (l : List (String × α)) (k : String) :
    List (String × α) :=
  l.filter (fun p => !(p.1 = k : Bool))

/-- Embedding of `SessionStore.get_session`: not-found if the id is
absent; lazy expiry (delete and not-found) if
`now - last_accessed > session_timeout`; otherwise refresh
`last_accessed` to the current time and return the session. -/
def SessionStore.get_session (store : SessionStore) (now : Int)
    (session_id : String) : Option SessionInfo × SessionStore :=
  match dictGet store.sessions session_id with
  | none => (none, store)
  | some s =>
    if now - s.last_accessed > store.session_timeout then
      (none, { store with sessions := dictDel store.sessions session_id })
    else
      let s' := { s with last_accessed := now }
      (some s', { store with sessions := dictSet store.sessions session_id s' })

/-- Embedding of `SessionStore._cleanup_expired_sessions`: drop every
session with `now - last_accessed > session_timeout`. -/
def SessionStore.cleanup_expired (store : SessionStore) (now : Int) :
    SessionStore :=
  { store with
    sessions := store.sessions.filter
      (fun p => !(now - p.2.last_accessed > store.session_timeout : Bool)) }

/-- Embedding of `SessionStore._remove_oldest_session`: delete the entry
whose `last_accessed` is minimal (first such entry in iteration order,
matching Python `min` over the dict keys). -/
def SessionStore.remove_oldest (store : SessionStore) : SessionStore :=
  match store.sessions with
  | [] => store
  | p :: ps =>
    let oldest := (p :: ps).foldl
      (fun acc q => if q.2.last_accessed < acc.2.last_accessed then q else acc) p
    { store with sessions := dictDel store.sessions oldest.1 }

/-- Embedding of `SessionStore.create_session`: clean up expired
sessions, evict the oldest if still at capacity, then insert a fresh
session (the fresh `uuid4` is passed in as `new_id`) whose memory is a
`ConversationBufferWindowMemory` with `k = 20` and empty history. -/
def SessionStore.create_session (store : SessionStore) (now : Int)
    (context : List (String × String)) (new_id : String) :
    String × SessionStore :=
  let store1 := store.cleanup_expired now
  let store2 :=
    if store1.sessions.length ≥ store1.max_sessions then store1.remove_oldest
    else store1
  let info : SessionInfo :=
    { session_id := new_id, created_at := now, last_accessed := now,
      memory := { k := 20, messages := [] }, context := context }
  (new_id, { store2 with sessions := store2.sessions ++ [(new_id, info)] })

/-- Embedding of `SessionStore.add_message`: fetch the session through
`get_session` (which refreshes `last_accessed` or discovers expiry) and,
when found, append the user/AI pair to its conversation memory. -/
def SessionStore.add_message (store : SessionStore) (now : Int)
    (session_id user_message ai_message : String) : Bool × SessionStore :=
  match store.get_session now session_id with
  | (none, store') => (false, store')
  | (some s, store') =>
    let s' := { s with memory := s.memory.save_context user_message ai_message }
    (true, { store' with sessions := dictSet store'.sessions session_id s' })

/-! ### Persistence layer (`persist_guidelines.py`)

The relational store is modelled as three row lists (tables).  The
schema file `schema.sql` executed by `setup_database.py` is not part of
the sources, so the table constraints - the primary keys named in the
INSERT statements and the behaviour of `DELETE FROM portfolio` towards
dependent rows - are modelled from the spec (see the doc comments on
the per-table operations). -/

/-- Row of the `portfolio` table. -/
structure PortfolioRow where
  portfolio_id : String
  portfolio_name : String
deriving DecidableEq

/-- Row of the `document` table. -/
structure DocumentRow where
  doc_id : String
  portfolio_id : String
  doc_name : String
  doc_date : String
  human_readable_digest : String
deriving DecidableEq

/-- Row of the `guideline` table as inserted by `_ingest_guidelines`
(the `embedding` column is absent from that INSERT and starts null, so
it is not modelled here).  `structured_data` holds the
`json.dumps(structured_data)` serialisation, or null. -/
structure GuidelineRow where
  portfolio_id : String
  rule_id : String
  doc_id : String
  part : Option String
  «section» : Option String
  subsection : Option String
  text : Option String
  page : Option Int
  provenance : Option String
  structured_data : Option String
deriving DecidableEq

/-- One guideline object of the parsed extraction data handed to
`persist_guidelines_from_data` (`data["guidelines"][i]`): the fields
read with `guideline.get(...)`/`guideline["rule_id"]`, with
`structured` already carrying the serialised form that
`json.dumps` produces (or none when the payload is falsy, in which case
the code stores null). -/
structure GuidelineInput where
  rule_id : String
  part : Option String
  «section» : Option String
  subsection : Option String
  text : Option String
  page : Option Int
  provenance : Option String
  structured : Option String
deriving DecidableEq

/-- The parsed JSON data dictionary handed to
`persist_guidelines_from_data` (fields `data["portfolio_id"]`,
`data["portfolio_name"]`, `data["doc_id"]`, `data["doc_name"]`,
`data["doc_date"]`, `data["guidelines"]`). -/
structure PersistData where
  portfolio_id : String
  portfolio_name : String
  doc_id : String
  doc_name : String
  doc_date : String
  guidelines : List GuidelineInput
deriving DecidableEq

/-- The database state: the three tables touched by persistence. -/
structure Database where
  portfolio : List PortfolioRow
  document : List DocumentRow
  guideline : List GuidelineRow
deriving DecidableEq

/-- Modelled from the spec: `schema.sql` is not under the sources, so
the effect of `DELETE FROM portfolio WHERE portfolio_id = %s` on
dependent rows follows spec section 4.2 - "delete all existing
(portfolio, document, guideline) rows for this portfolio_id", i.e. the
delete cascades to the portfolio's documents and guidelines. -/
def Database.delete_portfolio_cascade (db : Database) (pid : String) : Database :=
  { portfolio := db.portfolio.filter (fun r => !(r.portfolio_id = pid : Bool)),
    document := db.document.filter (fun r => !(r.portfolio_id = pid : Bool)),
    guideline := db.guideline.filter (fun r => !(r.portfolio_id = pid : Bool)) }

/-- Embedding of `_delete_portfolio_if_exists`: check for the portfolio
row and, when present, delete it (cascading, see
`Database.delete_portfolio_cascade`); returns whether a deletion
happened. -/
def delete_portfolio_if_exists (db : Database) (pid : String) :
    Bool × Database :=
  if db.portfolio.any (fun r => r.portfolio_id = pid) then
    (true, db.delete_portfolio_cascade pid)
  else
    (false, db)

/-- Embedding of `_ingest_portfolio`.  Modelled from the spec for the
constraint part: `portfolio_id` is the table's unique key (spec section
3), so the INSERT raises on a duplicate; the raised message is the
row-level error carried into the rollback path. -/
def ingest_portfolio (db : Database) (data : PersistData) :
    Except String Database :=
  if db.portfolio.any (fun r => r.portfolio_id = data.portfolio_id) then
    Except.error ("duplicate key value in portfolio: " ++ data.portfolio_id)
  else
    Except.ok { db with portfolio := db.portfolio ++
      [{ portfolio_id := data.portfolio_id, portfolio_name := data.portfolio_name }] }

/-- Embedding of `_ingest_document`.  Modelled from the spec for the
constraint part: `doc_id` is the document table's unique key and
`portfolio_id` references the portfolio table (spec section 3). -/
def ingest_document (db : Database) (data : PersistData)
    (human_readable_digest : String) : Except String Database :=
  if db.document.any (fun r => r.doc_id = data.doc_id) then
    Except.error ("duplicate key value in document: " ++ data.doc_id)
  else if !(db.portfolio.any (fun r => r.portfolio_id = data.portfolio_id)) then
    Except.error ("foreign key violation in document: " ++ data.portfolio_id)
  else
    Except.ok { db with document := db.document ++
      [{ doc_id := data.doc_id, portfolio_id := data.portfolio_id,
         doc_name := data.doc_name, doc_date := data.doc_date,
         human_readable_digest := human_readable_digest }] }

/-- Guideline row built by the `_ingest_guidelines` INSERT from one
input object. -/
def GuidelineInput.toRow (g : GuidelineInput) (pid doc_id : String) :
    GuidelineRow :=
  { portfolio_id := pid, rule_id := g.rule_id, doc_id := doc_id,
    part := g.part, «section» := g.«section», subsection := g.subsection,
    text := g.text, page := g.page, provenance := g.provenance,
    structured_data := g.structured }

/-- One INSERT of the `_ingest_guidelines` loop.  Modelled from the
spec for the constraint part: `(portfolio_id, rule_id)` is the
guideline table's composite key and `doc_id` references the document
table (spec section 3). -/
def ingest_one_guideline (db : Database) (pid doc_id : String)
    (g : GuidelineInput) : Except String Database :=
  if db.guideline.any
      (fun r => r.portfolio_id = pid ∧ r.rule_id = g.rule_id) then
    Except.error ("duplicate key value in guideline: " ++ pid ++ "/" ++ g.rule_id)
  else if !(db.document.any (fun r => r.doc_id = doc_id)) then
    Except.error ("foreign key violation in guideline: " ++ doc_id)
  else
    Except.ok { db with guideline := db.guideline ++ [g.toRow pid doc_id] }

/-- Embedding of `_ingest_guidelines`: the INSERT loop over the
guideline list, stopping at the first row-level error. -/
def ingest_guidelines (db : Database) (pid doc_id : String)
    (guidelines : List GuidelineInput) : Except String Database :=
  guidelines.foldlM (fun d g => ingest_one_guideline d pid doc_id g) db

/-- Result dictionary of `persist_guidelines_from_data`: the success
branch carries `portfolio_id`, `doc_id`, `ingested_guidelines` and
`was_reingested`; the error branch carries only `message`. -/
structure PersistResult where
  status : String
  message : Option String
  portfolio_id : Option String
  doc_id : Option String
  ingested_guidelines : Option Nat
  was_reingested : Option Bool
deriving DecidableEq

/-- Transaction body of `persist_guidelines_from_data`: the optional
delete followed by the three inserts, all on the same uncommitted
connection state. -/
def persist_txn (db : Database) (data : PersistData)
    (human_readable_digest : String) : Bool × Except String Database :=
  let del := delete_portfolio_if_exists db data.portfolio_id
  (del.1, do
    let db2 ← ingest_portfolio del.2 data
    let db3 ← ingest_document db2 data human_readable_digest
    ingest_guidelines db3 data.portfolio_id data.doc_id data.guidelines)

/-- Embedding of `persist_guidelines_from_data` (database connection
assumed established; the connection-failure early return is outside the
transactional claims).  On success the transaction is committed and the
success dictionary returned; on any row-level error the transaction is
rolled back - the returned state is the pre-call state - and the
structured error dictionary is returned instead of an exception
propagating. -/
def persist_guidelines_from_data (db : Database) (data : PersistData)
    (human_readable_digest : String) : PersistResult × Database :=
  match persist_txn db data human_readable_digest with
  | (was_deleted, Except.ok db') =>
    ({ status := "success", message := none,
       portfolio_id := some data.portfolio_id,
       doc_id := some data.doc_id,
       ingested_guidelines := some data.guidelines.length,
       was_reingested := some was_deleted }, db')
  | (_, Except.error e) =>
    ({ status := "error", message := some e,
       portfolio_id := none, doc_id := none,
       ingested_guidelines := none, was_reingested := none }, db)

/-! ### Guideline repository semantic search
(`guidelines_agent/models/repositories/guideline_repository.py`) -/

/-- Row of the `guideline` table as seen by the repository, including
the nullable `embedding` vector column (rationals stand for the stored
floats). -/
structure StoredGuideline where
  portfolio_id : String
  rule_id : String
  doc_id : String
  part : Option String
  «section» : Option String
  subsection : Option String
  text : String
  page : Option Int
  provenance : Option String
  structured_data : Option String
  embedding : Option (List ℚ)
deriving DecidableEq

/-- The `GuidelineSearchResult` dataclass built by
`GuidelineRepository.semantic_search`. -/
structure GuidelineSearchResult where
  guideline : StoredGuideline
  rank : Nat
  similarity : ℚ
  portfolio_name : String
deriving DecidableEq

/-- Ordering used by `ORDER BY similarity DESC`: the later row's
similarity is at most the earlier row's. -/
def simDescRel (a b : StoredGuideline × String × ℚ) : Prop := b.2.2 ≤ a.2.2

instance : DecidableRel simDescRel :=
  fun a b => inferInstanceAs (Decidable (b.2.2 ≤ a.2.2))

instance : IsTotal (StoredGuideline × String × ℚ) simDescRel :=
  ⟨fun a b => le_total b.2.2 a.2.2⟩

instance : IsTrans (StoredGuideline × String × ℚ) simDescRel :=
  ⟨fun _ _ _ h1 h2 => le_trans h2 h1⟩

/-- Per-guideline part of the SQL query in
`GuidelineRepository.semantic_search`: join the guideline with its
portfolio row and keep it when its embedding is non-null, its
similarity meets the threshold and, when a `portfolio_ids` filter is
supplied, its portfolio is listed.  `sim e` stands for the value
`1 - (e <=> query_embedding)` the storage engine computes for the
stored vector `e` against the query vector of this call. -/
def semantic_join_row (portfolio : List PortfolioRow) (sim : List ℚ → ℚ)
    (portfolio_ids : Option (List String)) (similarity_threshold : ℚ)
    (g : StoredGuideline) : Option (StoredGuideline × String × ℚ) :=
  match g.embedding with
  | none => none
  | some e =>
    match portfolio.find? (fun p => p.portfolio_id = g.portfolio_id) with
    | none => none
    | some p =>
      if similarity_threshold ≤ sim e then
        if (match portfolio_ids with
            | none => true
            | some ids => ids.contains g.portfolio_id) then
          some (g, p.portfolio_name, sim e)
        else none
      else none

/-- Result set of the SQL query in `GuidelineRepository.semantic_search`
before ranking: the joined and filtered rows, sorted by similarity
descending, with `LIMIT top_k` applied. -/
def semantic_search_rows (portfolio : List PortfolioRow)
    (guideline : List StoredGuideline) (sim : List ℚ → ℚ)
    (portfolio_ids : Option (List String)) (top_k : Nat)
    (similarity_threshold : ℚ) : List (StoredGuideline × String × ℚ) :=
  let joined := guideline.filterMap
    (semantic_join_row portfolio sim portfolio_ids similarity_threshold)
  (joined.insertionSort simDescRel).take top_k

/-- Ranking loop of `GuidelineRepository.semantic_search`:
`enumerate(results, 1)` assigns ranks 1.. in result order. -/
def rank_results (rows : List (StoredGuideline × String × ℚ)) :
    List GuidelineSearchResult :=
  rows.enum.map (fun p =>
    { guideline := p.2.1, rank := p.1 + 1,
      similarity := p.2.2.2, portfolio_name := p.2.2.1 })

/-- Embedding of `GuidelineRepository.semantic_search` on the
successful path: execute the query and rank its rows. -/
def semantic_search (portfolio : List PortfolioRow)
    (guideline : List StoredGuideline) (sim : List ℚ → ℚ)
    (portfolio_ids : Option (List String)) (top_k : Nat)
    (similarity_threshold : ℚ) : List GuidelineSearchResult :=
  rank_results
    (semantic_search_rows portfolio guideline sim portfolio_ids top_k
      similarity_threshold)

/-- Default of the `similarity_threshold` parameter of
`GuidelineRepository.semantic_search` and
`GuidelineService.semantic_search_guidelines` (`0.5`). -/
def semantic_search_default_threshold : ℚ := 1 / 2

/-- Embedding of `GuidelineRepository.semantic_search` including its
`try/except`: the query execution either returns the row set or raises,
and a raised exception is swallowed into an empty result list.  The
`query_outcome` parameter is the outcome of `_execute_query` on the
query of `semantic_search_rows`. -/
def repo_semantic_search
    (query_outcome : Except String (List (StoredGuideline × String × ℚ))) :
    List GuidelineSearchResult :=
  match query_outcome with
  | Except.ok rows => rank_results rows
  | Except.error _ => []

/-- Embedding of `GuidelineService.semantic_search_guidelines`:
`generate_embeddings([query_text])` either raises (swallowed by the
service's `try/except` into `[]`) or returns a list of vectors; a falsy
result or a falsy first vector also short-circuits to `[]`; otherwise
the repository search runs. -/
def semantic_search_guidelines
    (embed_outcome : Except String (List (List ℚ)))
    (query_outcome : Except String (List (StoredGuideline × String × ℚ))) :
    List GuidelineSearchResult :=
  match embed_outcome with
  | Except.error _ => []
  | Except.ok embs =>
    match embs with
    | [] => []
    | e :: _ => if e = [] then [] else repo_semantic_search query_outcome

/-! ### Provider gateway (`guidelines_agent/core/llm_providers.py`) -/

/-- The `LLMProvider` enum. -/
inductive LLMProviderKind
  | gemini
  | openai
  | anthropic
  | mock
deriving DecidableEq

/-- Value string of the `LLMProvider` enum member. -/
def LLMProviderKind.value : LLMProviderKind → String
  | .gemini => "gemini"
  | .openai => "openai"
  | .anthropic => "anthropic"
  | .mock => "mock"

/-- The `LLMResponse` dataclass (timing, usage and request-id fields,
which no claim mentions, are omitted). -/
structure LLMResponseM where
  content : String
  provider : LLMProviderKind
  model : String
  success : Bool
  error : Option String
deriving DecidableEq

/-- Environment of one gateway call: which credentials are present
(`is_available` of the Gemini/OpenAI providers) and the outcome of each
vendor SDK call - `Except.ok` is the generated text, `Except.error e`
is an exception raised inside the backend call with message `e`
(network failure, API error).  The mock provider consults no backend. -/
structure GatewayEnv where
  gemini_available : Bool
  openai_available : Bool
  backend : LLMProviderKind → String → Except String String

/-- Python substring test `sub in s` (for nonempty `sub`). -/
def pyContains (s sub : String) : Bool := (s.splitOn sub).length > 1

/-- Mock content selection of `MockProvider.generate_response` (the
embedded JSON literals are abbreviated to their identifying heads; no
claim depends on their full text). -/
def mock_content (prompt : String) : String :=
  let lower := prompt.toLower
  if pyContains lower "extract" || pyContains lower "guidelines" then
    "\x7b \"is_valid_document\": true \x7d"
  else if pyContains lower "plan" || pyContains lower "query" then
    "\x7b \"search_query\": \"mock search terms\" \x7d"
  else
    "Mock LLM response: This is a simulated response for development/testing purposes."

/-- Per-provider `generate_response`: the Gemini and OpenAI providers
wrap the whole backend call in `try/except`, returning a success
response with the stripped content on success and a
`success=False` response with `content=""` and `error=str(e)` when the
backend raises.  The mock provider always succeeds.  The anthropic case
is never dispatched (no implementation is registered for it; the
manager raises first) and is given the failure value here only for
totality. -/
def execute_provider (env : GatewayEnv) (p : LLMProviderKind)
    (model prompt : String) : LLMResponseM :=
  match p with
  | .gemini =>
    match env.backend .gemini prompt with
    | Except.ok text =>
      { content := text.trim, provider := .gemini, model := model,
        success := true, error := none }
    | Except.error e =>
      { content := "", provider := .gemini, model := model,
        success := false, error := some e }
  | .openai =>
    match env.backend .openai prompt with
    | Except.ok text =>
      { content := text.trim, provider := .openai, model := model,
        success := true, error := none }
    | Except.error e =>
      { content := "", provider := .openai, model := model,
        success := false, error := some e }
  | .mock =>
    { content := mock_content prompt, provider := .mock, model := model,
      success := true, error := none }
  | .anthropic =>
    { content := "", provider := .anthropic, model := model,
      success := false, error := some "no implementation registered" }

/-- Which providers `LLMManager._initialize_providers` registers in
`self.providers` (anthropic is a member of the enum but is never
registered). -/
def gateway_registered : LLMProviderKind → Bool
  | .anthropic => false
  | _ => true

/-- `is_available` of each registered provider: library import plus
credential for Gemini/OpenAI; the mock provider is always available. -/
def provider_is_available (env : GatewayEnv) : LLMProviderKind → Bool
  | .gemini => env.gemini_available
  | .openai => env.openai_available
  | .mock => true
  | .anthropic => false

/-- Embedding of `LLMManager.get_default_provider`: first available
provider in the fixed priority order Gemini, OpenAI, Mock (the mock
fallback never fails). -/
def get_default_provider (env : GatewayEnv) : LLMProviderKind :=
  if env.gemini_available then .gemini
  else if env.openai_available then .openai
  else .mock

/-- Default model chosen by `LLMManager.generate_response` when no
model is passed (`model_defaults.get(provider, "default-model")`). -/
def manager_default_model : LLMProviderKind → String
  | .gemini => "gemini-1.5-flash"
  | .openai => "gpt-3.5-turbo"
  | .mock => "mock-model"
  | .anthropic => "default-model"

/-- Embedding of `LLMManager.generate_response`: resolve the provider
and model defaults, raise (`Except.error`, the `ValueError`s) when the
provider is not registered or no fallback exists, substitute the
default provider when the selected one is unavailable, then run the
provider implementation. -/
def manager_generate_response (env : GatewayEnv) (prompt : String)
    (model : Option String) (provider : Option LLMProviderKind) :
    Except String LLMResponseM :=
  let p := provider.getD (get_default_provider env)
  let m := model.getD (manager_default_model p)
  if gateway_registered p = false then
    Except.error ("Provider " ++ p.value ++ " not available")
  else if provider_is_available env p = false then
    let fb := get_default_provider env
    if fb = p then Except.error "No available LLM providers configured"
    else Except.ok (execute_provider env fb m prompt)
  else
    Except.ok (execute_provider env p m prompt)

/-- The provider whose implementation ends up executing the request:
the requested (or default) provider when available, otherwise the
fallback default. -/
def dispatched_provider (env : GatewayEnv)
    (provider : Option LLMProviderKind) : LLMProviderKind :=
  let p := provider.getD (get_default_provider env)
  if provider_is_available env p then p else get_default_provider env

/-! ### Ingestion workflow
(`guidelines_agent/services/agent_service.py`, with the collaborator
outcomes of `guidelines_agent/services/{document,guideline}_service.py`
as parameters) -/

/-- The `ExtractionResult` dataclass
(`guidelines_agent/models/entities/portfolio.py`). -/
structure ExtractionResult where
  is_valid : Bool
  validation_summary : String
  guidelines : List GuidelineInput
  portfolio_info : List (String × String)
  error_message : Option String
deriving DecidableEq

/-- The `processing_result` dictionary returned by
`GuidelineService.process_full_extraction`. -/
structure ProcessingResult where
  success : Bool
  portfolio_saved : Bool
  document_saved : Bool
  guidelines_saved : Nat
  errors : List String
  doc_id : Option String
  portfolio_id : Option String
deriving DecidableEq

/-- The dictionary returned by
`GuidelineService.generate_missing_embeddings` (the `processed` key is
absent on its failure branch, hence optional). -/
structure EmbeddingResult where
  success : Bool
  processed : Option Nat
  error : Option String
deriving DecidableEq

/-- One stage of `AgentService.process_document_ingestion`, recorded in
the invocation trace: the extraction call, the persistence call
(`process_full_extraction`) and the embedding backfill
(`generate_missing_embeddings`). -/
inductive IngestionStep
  | extract
  | persist
  | embed
deriving DecidableEq

/-- Result dictionary of `AgentService.process_document_ingestion`.
The `details` key holds the validation summary string on the
invalid-document branch and the error list on the failed-persistence
branch. -/
structure IngestionOutcome where
  success : Bool
  message : Option String
  error : Option String
  details : Option (String ⊕ List String)
  doc_id : Option String
  portfolio_id : Option String
  guidelines_count : Option Nat
  embeddings_generated : Option Nat
  validation_summary : Option String
deriving DecidableEq

/-- Embedding of `AgentService.process_document_ingestion`.  The three
collaborator calls are modelled by their outcomes
(`extraction_result`, `processing_result`, `embedding_result`); a
collaborator is invoked exactly when its step appears in the returned
trace, so the trace records which of the supplied outcomes the code
actually consumed. -/
def process_document_ingestion (extraction_result : ExtractionResult)
    (processing_result : ProcessingResult)
    (embedding_result : EmbeddingResult) :
    IngestionOutcome × List IngestionStep :=
  if extraction_result.is_valid = false then
    ({ success := false, message := none,
       error := some "Document extraction failed",
       details := some (Sum.inl extraction_result.validation_summary),
       doc_id := none, portfolio_id := none, guidelines_count := none,
       embeddings_generated := none, validation_summary := none },
     [IngestionStep.extract])
  else if processing_result.success = false then
    ({ success := false, message := none,
       error := some "Failed to persist extracted data",
       details := some (Sum.inr processing_result.errors),
       doc_id := none, portfolio_id := none, guidelines_count := none,
       embeddings_generated := none, validation_summary := none },
     [IngestionStep.extract, IngestionStep.persist])
  else
    ({ success := true,
       message := some "Document ingestion completed successfully",
       error := none, details := none,
       doc_id := processing_result.doc_id,
       portfolio_id := processing_result.portfolio_id,
       guidelines_count := some processing_result.guidelines_saved,
       embeddings_generated := some (embedding_result.processed.getD 0),
       validation_summary := some extraction_result.validation_summary },
     [IngestionStep.extract, IngestionStep.persist, IngestionStep.embed])

/-! ### Query planner (`guidelines_agent/core/query_planner.py`) -/

/-- A scalar JSON value as far as the plan object is concerned: a
number or a non-numeric (string) value. -/
inductive JsonScalar
  | num (n : Int)
  | str (s : String)
deriving DecidableEq

/-- The plan object parsed from the provider output by
`generate_query_plan`: a JSON object whose relevant keys are
`search_query`, `summary_instruction` and `top_k`, each possibly
absent (the code performs no key validation or defaulting). -/
structure PlanJson where
  search_query : Option String
  summary_instruction : Option String
  top_k : Option JsonScalar
deriving DecidableEq

/-- Return value of `generate_query_plan`: the parsed plan dictionary,
or the error dictionary (`error` message plus the `llm_response`
text). -/
inductive PlanOutcome
  | plan (p : PlanJson)
  | error (msg : String) (llm_response : String)
deriving DecidableEq

/-- The `top_k` entry of the returned plan dictionary (absent on the
error branch). -/
def PlanOutcome.top_k : PlanOutcome → Option JsonScalar
  | .plan p => p.top_k
  | .error _ _ => none

/-- Response cleaning in `generate_query_plan`:
`response.content.strip().replace("```json", "").replace("```", "")`. -/
def planner_clean (content : String) : String :=
  ((content.trim).replace "```json" "").replace "```" ""

/-- Embedding of `generate_query_plan`.  The provider call outcome is
the `response` parameter; `loads` is the outcome of Python
`json.loads` on the cleaned text (`none` models a raised
`JSONDecodeError`, caught by the `except` branch).  Note the parsed
plan is returned as-is: no `top_k` defaulting happens in code. -/
def generate_query_plan (response : LLMResponseM)
    (loads : String → Option PlanJson) : PlanOutcome :=
  if response.success = false then
    PlanOutcome.error ("LLM API call failed: " ++ response.error.getD "None") ""
  else
    match loads (planner_clean response.content) with
    | some plan => PlanOutcome.plan plan
    | none =>
      PlanOutcome.error "Error creating plan: JSONDecodeError" response.content

/-! ### Extraction entry point (`guidelines_agent/core/extract.py`) -/

/-- The fields of the JSON object parsed from a successful model
response that the surrounding workflow reads (`is_valid_document`,
`validation_summary`); each may be absent from the parsed object. -/
structure ParsedExtraction where
  is_valid_document : Option Bool
  validation_summary : Option String
deriving DecidableEq

/-- Return dictionary of `extract_guidelines_from_pdf`, with one
`Option` per key that only some branches emit: the transport-failure
branch emits `success`/`error` (and neither validity key), the
malformed-response branches emit `is_valid_document`/
`validation_summary`, and the parsed-JSON branch passes the parsed
object through. -/
structure ExtractReturn where
  success : Option Bool
  error : Option String
  is_valid_document : Option Bool
  validation_summary : Option String
deriving DecidableEq

/-- Embedding of the response handling of `extract_guidelines_from_pdf`
(lines after the `llm_manager.generate_response` call).  `json_extract`
is the outcome of `extract_json_from_text` on the response text
(`none` when no JSON object is found); `loads` is the outcome of
`json.loads` on the extracted string (`none` models a raised
`JSONDecodeError`). -/
def extract_guidelines_from_pdf (response : LLMResponseM)
    (json_extract : String → Option String)
    (loads : String → Option ParsedExtraction) : ExtractReturn :=
  if response.success = false then
    { success := some false,
      error := some ("LLM generation failed: " ++ response.error.getD "None"),
      is_valid_document := none, validation_summary := none }
  else
    match json_extract response.content with
    | none =>
      { success := none, error := none,
        is_valid_document := some false,
        validation_summary := some "Failed to process the document due to a malformed response from the AI model." }
    | some json_string =>
      match loads json_string with
      | none =>
        { success := none, error := none,
          is_valid_document := some false,
          validation_summary := some "Failed to process the document due to an invalid JSON structure in the AI response." }
      | some parsed =>
        { success := none, error := none,
          is_valid_document := parsed.is_valid_document,
          validation_summary := parsed.validation_summary }

/-! ### Concrete instances used by witnesses and counterexamples -/

/-- Two-row guideline input whose duplicate `rule_id` makes the second
INSERT of the guideline loop violate the composite key. -/
def c2_data : PersistData :=
  { portfolio_id := "P1", portfolio_name := "Pension One",
    doc_id := "P1_2020-01-01", doc_name := "IPS 2020", doc_date := "2020-01-01",
    guidelines :=
      [ { rule_id := "R1", part := none, «section» := none, subsection := none,
          text := some "No leverage.", page := some 3, provenance := none,
          structured := none },
        { rule_id := "R1", part := none, «section» := none, subsection := none,
          text := some "Duplicate rule id.", page := some 4, provenance := none,
          structured := none } ] }

/-- Pre-existing database state for the rollback witness. -/
def c2_db : Database :=
  { portfolio := [{ portfolio_id := "P2", portfolio_name := "Other Fund" }],
    document := [{ doc_id := "D2", portfolio_id := "P2", doc_name := "Old doc",
                   doc_date := "2019-01-01", human_readable_digest := "old" }],
    guideline := [{ portfolio_id := "P2", rule_id := "R9", doc_id := "D2",
                    part := none, «section» := none, subsection := none,
                    text := some "Keep me.", page := none, provenance := none,
                    structured_data := none }] }

/-- Database already holding a first ingestion of portfolio `P1` (one
document, two guidelines) plus an unrelated portfolio `P2`. -/
def c1_db : Database :=
  { portfolio := [{ portfolio_id := "P1", portfolio_name := "Pension One" },
                  { portfolio_id := "P2", portfolio_name := "Other Fund" }],
    document := [{ doc_id := "P1_2019", portfolio_id := "P1", doc_name := "IPS 2019",
                   doc_date := "2019-01-01", human_readable_digest := "v1" },
                 { doc_id := "D2", portfolio_id := "P2", doc_name := "Old doc",
                   doc_date := "2019-01-01", human_readable_digest := "old" }],
    guideline := [{ portfolio_id := "P1", rule_id := "OLD-1", doc_id := "P1_2019",
                    part := none, «section» := none, subsection := none,
                    text := some "Old rule one.", page := some 1, provenance := none,
                    structured_data := none },
                  { portfolio_id := "P1", rule_id := "OLD-2", doc_id := "P1_2019",
                    part := none, «section» := none, subsection := none,
                    text := some "Old rule two.", page := some 2, provenance := none,
                    structured_data := none },
                  { portfolio_id := "P2", rule_id := "R9", doc_id := "D2",
                    part := none, «section» := none, subsection := none,
                    text := some "Keep me.", page := none, provenance := none,
                    structured_data := none }] }

/-- Second ingestion of portfolio `P1` with a different guideline set. -/
def c1_data : PersistData :=
  { portfolio_id := "P1", portfolio_name := "Pension One",
    doc_id := "P1_2020", doc_name := "IPS 2020", doc_date := "2020-01-01",
    guidelines :=
      [ { rule_id := "NEW-1", part := some "V", «section» := some "Limits",
          subsection := none, text := some "New rule one.", page := some 5,
          provenance := some "V. Limits", structured := none },
        { rule_id := "NEW-2", part := some "V", «section» := some "Limits",
          subsection := none, text := some "New rule two.", page := some 6,
          provenance := some "V. Limits", structured := none } ] }

/-- Session record used by the TTL witness. -/
def c6_info : SessionInfo :=
  { session_id := "s1", created_at := 100, last_accessed := 100,
    memory := { k := 20, messages := [] }, context := [] }

/-- Store holding one session, with the default timeout of 3600 seconds
and capacity 100. -/
def c6_store : SessionStore :=
  { sessions := [("s1", c6_info)], session_timeout := 3600, max_sessions := 100 }

/-- Eleven query/response exchanges. -/
def c7_exchanges : List (String × String) :=
  [("q1", "a1"), ("q2", "a2"), ("q3", "a3"), ("q4", "a4"), ("q5", "a5"),
   ("q6", "a6"), ("q7", "a7"), ("q8", "a8"), ("q9", "a9"), ("q10", "a10"),
   ("q11", "a11")]

/-- The conversation memory of a fresh session (`k = 20`, as
`create_session` builds it) after the eleven exchanges of
`c7_exchanges` have been appended via `save_context`. -/
def c7_memory : ConversationBufferWindowMemory :=
  c7_exchanges.foldl (fun m qa => m.save_context qa.1 qa.2)
    { k := 20, messages := [] }

/-- Gateway environment: Gemini credential present, OpenAI absent, and
every backend call raising an exception with message `boom`. -/
def c5_env : GatewayEnv :=
  { gemini_available := true, openai_available := false,
    backend := fun _ _ => Except.error "boom" }

/-- Invalid-document extraction outcome. -/
def c4_extraction : ExtractionResult :=
  { is_valid := false,
    validation_summary := "The document appears to be a marketing brochure.",
    guidelines := [], portfolio_info := [], error_message := none }

/-- Unused persistence outcome (the trace shows it is never consumed). -/
def c4_processing : ProcessingResult :=
  { success := true, portfolio_saved := true, document_saved := true,
    guidelines_saved := 3, errors := [], doc_id := some "D1",
    portfolio_id := some "P1" }

/-- Unused embedding outcome (the trace shows it is never consumed). -/
def c4_embedding : EmbeddingResult :=
  { success := true, processed := some 3, error := none }

/-- Successful provider response whose JSON plan omits the `top_k`
key. -/
def c8_response : LLMResponseM :=
  { content := "\x7b\"search_query\": \"emerging market rules\", \"summary_instruction\": \"What are the rules for emerging markets?\"\x7d",
    provider := LLMProviderKind.gemini, model := "gemini-1.5-flash",
    success := true, error := none }

/-- The plan object `json.loads` yields for `c8_response`: a JSON
object with `search_query` and `summary_instruction` but no `top_k`. -/
def c8_plan : PlanJson :=
  { search_query := some "emerging market rules",
    summary_instruction := some "What are the rules for emerging markets?",
    top_k := none }

/-- Outcome of `json.loads` on the cleaned `c8_response` content. -/
def c8_loads : String → Option PlanJson :=
  fun s => if s = planner_clean c8_response.content then some c8_plan else none

/-- Transport-level failure response of the document-understanding
call. -/
def c9_fail_response : LLMResponseM :=
  { content := "", provider := LLMProviderKind.gemini,
    model := "gemini-1.5-flash", success := false,
    error := some "network unreachable" }

/-- One-portfolio, three-guideline table for the search witness: one
row with a high-similarity embedding, one with no embedding, one below
the threshold. -/
def c3_portfolio : List PortfolioRow :=
  [{ portfolio_id := "P1", portfolio_name := "Pension One" }]

/-- Guideline table for the search witness. -/
def c3_guideline : List StoredGuideline :=
  [ { portfolio_id := "P1", rule_id := "R1", doc_id := "D1", part := none,
      «section» := none, subsection := none, text := "High similarity rule.",
      page := none, provenance := none, structured_data := none,
      embedding := some [1] },
    { portfolio_id := "P1", rule_id := "R2", doc_id := "D1", part := none,
      «section» := none, subsection := none, text := "No embedding yet.",
      page := none, provenance := none, structured_data := none,
      embedding := none },
    { portfolio_id := "P1", rule_id := "R3", doc_id := "D1", part := none,
      «section» := none, subsection := none, text := "Low similarity rule.",
      page := none, provenance := none, structured_data := none,
      embedding := some [0] } ]

/-- Concrete similarity operator for the search witness: the first
vector component (standing for the engine's cosine-similarity value for
that stored vector against the query vector). -/
def c3_sim : List ℚ → ℚ := fun e => e.headD 0

/-- The single result the witness search returns. -/
def c3_expected_result : GuidelineSearchResult :=
  { guideline :=
      { portfolio_id := "P1", rule_id := "R1", doc_id := "D1", part := none,
        «section» := none, subsection := none,
        text := "High similarity rule.", page := none, provenance := none,
        structured_data := none, embedding := some [1] },
    rank := 1, similarity := 1, portfolio_name := "Pension One" }

/-! ### Helper lemmas -/

/-- Looking a key up after deleting it finds nothing. -/
theorem dictGet_dictDel {α : Type} (l : List (String × α)) (k : String) :
    dictGet (dictDel l k) k = none := by
  induction l with
  | nil => rfl
  | cons p l ih =>
    by_cases h : p.1 = k
    · simpa [dictDel, h] using ih
    · simpa [dictDel, dictGet, h] using ih

/-- Updating a present key makes lookup return the new value. -/
theorem dictGet_dictSet {α : Type} (l : List (String × α)) (k : String)
    (v v0 : α) (h : dictGet l k = some v0) :
    dictGet (dictSet l k v) k = some v := by
  induction l with
  | nil => simp [dictGet] at h
  | cons p l ih =>
    by_cases hp : p.1 = k
    · simp [dictSet, dictGet, hp]
    · simp [dictGet, hp] at h
      simpa [dictSet, dictGet, hp] using ih h

/-! ### C6 - session TTL behaviour of `get_session` -/

/-- C6: for a stored session, fetching it with
`now - last_accessed ≤ timeout` returns the same session record with
`last_accessed` refreshed to `now` (and stores the refreshed record),
while fetching it with `now - last_accessed > timeout` deletes it and
returns not-found, freeing the slot. -/
theorem C6_get_session_ttl (store : SessionStore) (now : Int) (sid : String)
    (info : SessionInfo) (hl : dictGet store.sessions sid = some info) :
    (now - info.last_accessed ≤ store.session_timeout →
      (store.get_session now sid).1 = some { info with last_accessed := now } ∧
      dictGet (store.get_session now sid).2.sessions sid =
        some { info with last_accessed := now }) ∧
    (now - info.last_accessed > store.session_timeout →
      (store.get_session now sid).1 = none ∧
      dictGet (store.get_session now sid).2.sessions sid = none) := by
  constructor
  · intro h
    have hcond : ¬ now - info.last_accessed > store.session_timeout := by omega
    simp only [SessionStore.get_session, hl, if_neg hcond]
    exact ⟨by simp, dictGet_dictSet store.sessions sid _ info hl⟩
  · intro h
    simp only [SessionStore.get_session, hl, if_pos h]
    exact ⟨by simp, dictGet_dictDel store.sessions sid⟩

/-- Witness for C6: in a one-session store with the default 3600-second
timeout, fetching at time 200 (created at 100) returns the refreshed
session; fetching at time 9999 deletes it and returns not-found. -/
theorem C6_get_session_ttl_witness :
    (c6_store.get_session 200 "s1").1 = some { c6_info with last_accessed := 200 } ∧
    dictGet (c6_store.get_session 200 "s1").2.sessions "s1" =
      some { c6_info with last_accessed := 200 } ∧
    (c6_store.get_session 9999 "s1").1 = none ∧
    dictGet (c6_store.get_session 9999 "s1").2.sessions "s1" = none := by
  have h1 := C6_get_session_ttl c6_store 200 "s1" c6_info (by decide)
  have h2 := C6_get_session_ttl c6_store 9999 "s1" c6_info (by decide)
  have ha := h1.1 (by decide)
  have hb := h2.2 (by decide)
  exact ⟨ha.1, ha.2, hb.1, hb.2⟩

/-! ### C7 - conversation history window -/

/-- C7, evaluation at the failing input: after appending 11 exchanges
to the memory a session is created with (`k = 20`), the visible history
still holds all 22 messages, and the very first exchange
(`q1`) is still present at the head - the window drops nothing until 20
exchanges (40 messages) are exceeded, contradicting the claimed
capacity of 10 exchanges. -/
theorem C7_eleventh_exchange_keeps_first :
    c7_memory.buffer_as_messages.length = 22 ∧
    c7_memory.buffer_as_messages.head? = some (ChatMessage.human "q1") := by
  decide

/-! ### C10 - search failures return empty results -/

/-- C10: a raised database exception during `semantic_search` and a
failed (or empty) query-embedding generation each yield `[]`, the same
value a genuinely empty row set yields, so callers cannot tell an
internal failure from a zero-match result. -/
theorem C10_search_failures_return_empty (e : String)
    (query_outcome : Except String (List (StoredGuideline × String × ℚ))) :
    repo_semantic_search (Except.error e) = [] ∧
    semantic_search_guidelines (Except.error e) query_outcome = [] ∧
    semantic_search_guidelines (Except.ok []) query_outcome = [] ∧
    repo_semantic_search (Except.ok []) = [] :=
  ⟨rfl, rfl, rfl, rfl⟩

/-! ### C4 - invalid extraction skips persistence and embedding -/

/-- C4: when extraction reports `is_valid = false`, the ingestion
workflow's trace contains only the extraction step - neither the
persistence call nor the embedding backfill is invoked - and the
returned dictionary carries only the validation outcome. -/
theorem C4_invalid_extraction_skips_persist_and_embed
    (extraction_result : ExtractionResult)
    (processing_result : ProcessingResult)
    (embedding_result : EmbeddingResult)
    (h : extraction_result.is_valid = false) :
    (process_document_ingestion extraction_result processing_result
        embedding_result).2 = [IngestionStep.extract] ∧
    IngestionStep.persist ∉ (process_document_ingestion extraction_result
        processing_result embedding_result).2 ∧
    IngestionStep.embed ∉ (process_document_ingestion extraction_result
        processing_result embedding_result).2 ∧
    (process_document_ingestion extraction_result processing_result
        embedding_result).1 =
      { success := false, message := none,
        error := some "Document extraction failed",
        details := some (Sum.inl extraction_result.validation_summary),
        doc_id := none, portfolio_id := none, guidelines_count := none,
        embeddings_generated := none, validation_summary := none } := by
  simp [process_document_ingestion, h]

/-- Witness for C4 at a concrete invalid-document outcome. -/
theorem C4_invalid_extraction_skips_persist_and_embed_witness :
    (process_document_ingestion c4_extraction c4_processing c4_embedding).2 =
      [IngestionStep.extract] ∧
    IngestionStep.persist ∉
      (process_document_ingestion c4_extraction c4_processing c4_embedding).2 ∧
    (process_document_ingestion c4_extraction c4_processing c4_embedding).1.success
      = false := by
  have h := C4_invalid_extraction_skips_persist_and_embed c4_extraction
    c4_processing c4_embedding rfl
  exact ⟨h.1, h.2.1, by rw [h.2.2.2]⟩

/-! ### C8 - the planner applies no `top_k` default -/

/-- C8 counterexample: a successful provider response whose JSON object
has no `top_k` key yields a plan whose `top_k` entry is absent - the
code inserts no cold-start default of 7. -/
theorem C8_counterexample :
    generate_query_plan c8_response c8_loads = PlanOutcome.plan c8_plan ∧
    (generate_query_plan c8_response c8_loads).top_k ≠
      some (JsonScalar.num 7) := by
  have h : generate_query_plan c8_response c8_loads = PlanOutcome.plan c8_plan := by
    simp [generate_query_plan, c8_response, c8_loads]
  refine ⟨h, ?_⟩
  rw [h]
  simp [PlanOutcome.top_k, c8_plan]

/-- C8 as amended: the planner returns the parsed provider output
unchanged - `top_k` (and every other key) is exactly what the
provider's JSON contained, with no defaulting performed in code; the
default-of-7 and explicit-count behaviour live only in the prompt
text. -/
theorem C8_planner_returns_parsed_plan_unchanged (response : LLMResponseM)
    (loads : String → Option PlanJson) (p : PlanJson)
    (hs : response.success = true)
    (hp : loads (planner_clean response.content) = some p) :
    generate_query_plan response loads = PlanOutcome.plan p := by
  simp [generate_query_plan, hs, hp]

/-- Witness for the amended C8 at the concrete no-`top_k` response. -/
theorem C8_planner_returns_parsed_plan_unchanged_witness :
    generate_query_plan c8_response c8_loads = PlanOutcome.plan c8_plan :=
  C8_planner_returns_parsed_plan_unchanged c8_response c8_loads c8_plan rfl
    (by simp [c8_loads])

/-! ### C9 - extraction failure shapes -/

/-- C9 counterexample: on a transport-level provider failure the
extraction returns the error dictionary
`\x7b"success": False, "error": ...\x7d`, which carries NO
`is_valid_document` key and NO `validation_summary` - not the claimed
`is_valid_document=false` result. -/
theorem C9_counterexample :
    (extract_guidelines_from_pdf c9_fail_response (fun _ => none)
        (fun _ => none)).is_valid_document = none ∧
    (extract_guidelines_from_pdf c9_fail_response (fun _ => none)
        (fun _ => none)).validation_summary = none ∧
    (extract_guidelines_from_pdf c9_fail_response (fun _ => none)
        (fun _ => none)).success = some false := by
  refine ⟨?_, ?_, ?_⟩ <;> simp [extract_guidelines_from_pdf, c9_fail_response]

/-- C9 as amended: malformed model output (no JSON object found, or a
JSON decode error) yields `is_valid_document = false` with a
validation summary describing the malformed response, and neither case
raises; a transport/provider-level failure instead yields the
structured `success=False` error dictionary, which carries no validity
flag at all. -/
theorem C9_extraction_failure_handling (response : LLMResponseM)
    (json_extract : String → Option String)
    (loads : String → Option ParsedExtraction) :
    (response.success = false →
      extract_guidelines_from_pdf response json_extract loads =
        { success := some false,
          error := some ("LLM generation failed: " ++ response.error.getD "None"),
          is_valid_document := none, validation_summary := none }) ∧
    (response.success = true → json_extract response.content = none →
      extract_guidelines_from_pdf response json_extract loads =
        { success := none, error := none, is_valid_document := some false,
          validation_summary := some "Failed to process the document due to a malformed response from the AI model." }) ∧
    (∀ js, response.success = true → json_extract response.content = some js →
      loads js = none →
      extract_guidelines_from_pdf response json_extract loads =
        { success := none, error := none, is_valid_document := some false,
          validation_summary := some "Failed to process the document due to an invalid JSON structure in the AI response." }) := by
  refine ⟨?_, ?_, ?_⟩
  · intro h
    simp [extract_guidelines_from_pdf, h]
  · intro hs hj
    simp [extract_guidelines_from_pdf, hs, hj]
  · intro js hs hj hl
    simp [extract_guidelines_from_pdf, hs, hj, hl]

/-- Witness for the amended C9 at a concrete transport failure. -/
theorem C9_extraction_failure_handling_witness :
    extract_guidelines_from_pdf c9_fail_response (fun _ => none)
        (fun _ => none) =
      { success := some false,
        error := some ("LLM generation failed: " ++
          c9_fail_response.error.getD "None"),
        is_valid_document := none, validation_summary := none } :=
  (C9_extraction_failure_handling c9_fail_response (fun _ => none)
    (fun _ => none)).1 rfl

/-! ### C5 - the gateway returns failures instead of raising -/

/-- For any registered provider request (every enum member except the
never-registered anthropic), the manager returns a response rather than
raising: it executes the dispatched provider's implementation. -/
theorem manager_generate_response_ok (env : GatewayEnv) (prompt : String)
    (model : Option String) (provider : Option LLMProviderKind)
    (hA : provider ≠ some LLMProviderKind.anthropic) :
    manager_generate_response env prompt model provider =
      Except.ok (execute_provider env (dispatched_provider env provider)
        (model.getD (manager_default_model
          (provider.getD (get_default_provider env)))) prompt) := by
  rcases provider with _ | pk
  · rcases hg : env.gemini_available <;> rcases ho : env.openai_available <;>
      simp [manager_generate_response, dispatched_provider,
        get_default_provider, gateway_registered, provider_is_available, hg, ho]
  · cases pk with
    | gemini =>
      rcases hg : env.gemini_available <;> rcases ho : env.openai_available <;>
        simp [manager_generate_response, dispatched_provider,
          get_default_provider, gateway_registered, provider_is_available, hg, ho]
    | openai =>
      rcases hg : env.gemini_available <;> rcases ho : env.openai_available <;>
        simp [manager_generate_response, dispatched_provider,
          get_default_provider, gateway_registered, provider_is_available, hg, ho]
    | mock =>
      simp [manager_generate_response, dispatched_provider,
        get_default_provider, gateway_registered, provider_is_available]
    | anthropic => exact absurd rfl hA

/-- The Gemini and OpenAI implementations turn a raised backend
exception into a `success=False` response with empty content and the
exception message as the error string. -/
theorem execute_provider_backend_error (env : GatewayEnv)
    (p : LLMProviderKind) (model prompt e : String)
    (hp : p = LLMProviderKind.gemini ∨ p = LLMProviderKind.openai)
    (hb : env.backend p prompt = Except.error e) :
    execute_provider env p model prompt =
      { content := "", provider := p, model := model,
        success := false, error := some e } := by
  rcases hp with h | h <;> subst h <;> simp [execute_provider, hb]

/-- C5: a call to the gateway's generate operation for any registered
provider (or with the provider defaulted) never propagates a
provider-level error as a thrown exception: the call returns a
response, and whenever the dispatched backend raised - network failure
or API exception, including after a missing-credential fallback - that
response has `success=false`, the exception message as its error
string, and empty content. -/
theorem C5_gateway_never_throws (env : GatewayEnv) (prompt : String)
    (model : Option String) (provider : Option LLMProviderKind)
    (hA : provider ≠ some LLMProviderKind.anthropic) :
    ∃ r, manager_generate_response env prompt model provider = Except.ok r ∧
      ∀ e : String,
        ((dispatched_provider env provider = LLMProviderKind.gemini ∨
          dispatched_provider env provider = LLMProviderKind.openai) ∧
         env.backend (dispatched_provider env provider) prompt =
           Except.error e) →
        r.success = false ∧ r.error = some e ∧ r.content = "" := by
  refine ⟨execute_provider env (dispatched_provider env provider)
    (model.getD (manager_default_model
      (provider.getD (get_default_provider env)))) prompt,
    manager_generate_response_ok env prompt model provider hA, ?_⟩
  intro e ⟨hp, hb⟩
  rw [execute_provider_backend_error env _ _ prompt e hp hb]
  exact ⟨rfl, rfl, rfl⟩

/-- Witness for C5: Gemini configured, its backend raising `boom` -
the gateway returns a `success=false` response carrying `boom`. -/
theorem C5_gateway_never_throws_witness :
    ∃ r, manager_generate_response c5_env "hello" none none = Except.ok r ∧
      r.success = false ∧ r.error = some "boom" ∧ r.content = "" := by
  obtain ⟨r, hok, hfail⟩ :=
    C5_gateway_never_throws c5_env "hello" none none (by simp)
  have h := hfail "boom" ⟨Or.inl rfl, rfl⟩
  exact ⟨r, hok, h.1, h.2.1, h.2.2⟩

/-! ### C2 - row-level errors roll back the whole transaction -/

/-- C2: whenever `persist_guidelines_from_data` reports
`status = "error"`, the database state it leaves behind equals the
state before the call (the transaction was rolled back in full) and the
result carries an error message - a structured failure instead of a
raised exception. -/
theorem C2_persist_error_rolls_back (db : Database) (data : PersistData)
    (digest : String)
    (h : (persist_guidelines_from_data db data digest).1.status = "error") :
    (persist_guidelines_from_data db data digest).2 = db ∧
    ∃ msg, (persist_guidelines_from_data db data digest).1.message =
      some msg := by
  rcases hx : persist_txn db data digest with ⟨wd, res⟩
  cases res with
  | ok db' =>
    rw [persist_guidelines_from_data, hx] at h
    simp at h
  | error e =>
    rw [persist_guidelines_from_data, hx]
    exact ⟨rfl, e, rfl⟩

/-- Witness for C2: persisting `c2_data` (whose guideline list repeats
`rule_id` R1) into `c2_db` fails at the second guideline INSERT and
leaves `c2_db` unchanged. -/
theorem C2_persist_error_rolls_back_witness :
    (persist_guidelines_from_data c2_db c2_data "digest").1.status = "error" ∧
    (persist_guidelines_from_data c2_db c2_data "digest").2 = c2_db := by
  have hs : (persist_guidelines_from_data c2_db c2_data "digest").1.status =
      "error" := by decide
  exact ⟨hs, (C2_persist_error_rolls_back c2_db c2_data "digest" hs).1⟩

/-! ### C3 - the semantic search contract -/

/-- A row the join emits comes from its guideline with a non-null
embedding and similarity at or above the threshold. -/
theorem semantic_join_row_spec (portfolio : List PortfolioRow)
    (sim : List ℚ → ℚ) (portfolio_ids : Option (List String))
    (similarity_threshold : ℚ) (g : StoredGuideline)
    (trip : StoredGuideline × String × ℚ)
    (h : semantic_join_row portfolio sim portfolio_ids similarity_threshold g =
      some trip) :
    trip.1 = g ∧ g.embedding.isSome = true ∧
      similarity_threshold ≤ trip.2.2 := by
  unfold semantic_join_row at h
  split at h
  · exact absurd h (by simp)
  · rename_i e he
    split at h
    · exact absurd h (by simp)
    · split at h
      · rename_i hthr
        split at h
        · cases h
          exact ⟨rfl, by rw [he]; rfl, hthr⟩
        · exact absurd h (by simp)
      · exact absurd h (by simp)

/-- Ranking preserves the number of rows. -/
theorem rank_results_length (rows : List (StoredGuideline × String × ℚ)) :
    (rank_results rows).length = rows.length := by
  simp [rank_results]

/-- Ranking assigns the ranks 1..N in order. -/
theorem rank_results_map_rank (rows : List (StoredGuideline × String × ℚ)) :
    (rank_results rows).map GuidelineSearchResult.rank =
      (List.range rows.length).map (fun i => i + 1) := by
  unfold rank_results
  rw [List.map_map]
  have h1 : (GuidelineSearchResult.rank ∘ fun p :
      Nat × StoredGuideline × String × ℚ =>
      ({ guideline := p.2.1, rank := p.1 + 1, similarity := p.2.2.2,
         portfolio_name := p.2.2.1 } : GuidelineSearchResult)) =
      (fun i => i + 1) ∘ Prod.fst := rfl
  rw [h1, ← List.map_map, List.enum_map_fst]

/-- Ranking leaves the similarity column unchanged. -/
theorem rank_results_map_similarity
    (rows : List (StoredGuideline × String × ℚ)) :
    (rank_results rows).map GuidelineSearchResult.similarity =
      rows.map (fun t => t.2.2) := by
  unfold rank_results
  rw [List.map_map]
  have h1 : (GuidelineSearchResult.similarity ∘ fun p :
      Nat × StoredGuideline × String × ℚ =>
      ({ guideline := p.2.1, rank := p.1 + 1, similarity := p.2.2.2,
         portfolio_name := p.2.2.1 } : GuidelineSearchResult)) =
      (fun t : StoredGuideline × String × ℚ => t.2.2) ∘ Prod.snd := rfl
  rw [h1, ← List.map_map, List.enum_map_snd]

/-- Every ranked result carries the data of one of the rows. -/
theorem rank_results_mem (rows : List (StoredGuideline × String × ℚ))
    (res : GuidelineSearchResult) (h : res ∈ rank_results rows) :
    ∃ t ∈ rows, res.guideline = t.1 ∧ res.similarity = t.2.2 := by
  unfold rank_results at h
  rcases List.mem_map.mp h with ⟨p, hp, rfl⟩
  refine ⟨p.2, ?_, rfl, rfl⟩
  have hm := List.mem_map_of_mem Prod.snd hp
  rwa [List.enum_map_snd] at hm

/-- C3: `semantic_search` returns at most `top_k` results; every result
stems from a stored guideline row with a non-null embedding and has
similarity at or above the threshold; the result list is ordered by
similarity non-increasing; ranks are assigned 1..N in that order; and
the threshold parameter defaults to 0.5. -/
theorem C3_semantic_search_contract (portfolio : List PortfolioRow)
    (guideline : List StoredGuideline) (sim : List ℚ → ℚ)
    (portfolio_ids : Option (List String)) (top_k : Nat)
    (similarity_threshold : ℚ) :
    (semantic_search portfolio guideline sim portfolio_ids top_k
        similarity_threshold).length ≤ top_k ∧
    (∀ res ∈ semantic_search portfolio guideline sim portfolio_ids top_k
        similarity_threshold,
      res.guideline ∈ guideline ∧ res.guideline.embedding.isSome = true ∧
        similarity_threshold ≤ res.similarity) ∧
    ((semantic_search portfolio guideline sim portfolio_ids top_k
        similarity_threshold).map GuidelineSearchResult.similarity).Pairwise
      (fun a b => b ≤ a) ∧
    (semantic_search portfolio guideline sim portfolio_ids top_k
        similarity_threshold).map GuidelineSearchResult.rank =
      (List.range (semantic_search portfolio guideline sim portfolio_ids top_k
        similarity_threshold).length).map (fun i => i + 1) ∧
    semantic_search_default_threshold = 1 / 2 := by
  have hout : semantic_search portfolio guideline sim portfolio_ids top_k
      similarity_threshold =
      rank_results (((guideline.filterMap (semantic_join_row portfolio sim
        portfolio_ids similarity_threshold)).insertionSort
          simDescRel).take top_k) := rfl
  rw [hout]
  set joined := guideline.filterMap (semantic_join_row portfolio sim
    portfolio_ids similarity_threshold) with hjoined
  set sorted := joined.insertionSort simDescRel with hsorted
  set taken := sorted.take top_k with htaken
  refine ⟨?_, ?_, ?_, ?_, rfl⟩
  · rw [rank_results_length, htaken, List.length_take]
    exact min_le_left _ _
  · intro res hres
    obtain ⟨t, ht, hg, hs⟩ := rank_results_mem taken res hres
    have hts : t ∈ sorted := (List.take_sublist top_k sorted).subset ht
    have htj : t ∈ joined := (List.perm_insertionSort simDescRel joined).mem_iff.mp hts
    obtain ⟨g, hgmem, hjoin⟩ := List.mem_filterMap.mp htj
    obtain ⟨h1, h2, h3⟩ := semantic_join_row_spec portfolio sim portfolio_ids
      similarity_threshold g t hjoin
    refine ⟨?_, ?_, ?_⟩
    · rw [hg, h1]; exact hgmem
    · rw [hg, h1]; exact h2
    · rw [hs]; exact h3
  · rw [rank_results_map_similarity]
    have hsorted_pw : sorted.Pairwise simDescRel :=
      List.sorted_insertionSort simDescRel joined
    have htaken_pw : taken.Pairwise simDescRel :=
      hsorted_pw.sublist (List.take_sublist top_k sorted)
    exact (List.pairwise_map).mpr htaken_pw
  · rw [rank_results_map_rank, rank_results_length]

/-- Witness for C3: a concrete three-row table searched with threshold
1, where only the embedded row with similarity 1 survives; the contract
holds for that returned result. -/
theorem C3_semantic_search_contract_witness :
    (semantic_search c3_portfolio c3_guideline c3_sim none 10 1).length ≤ 10 ∧
    c3_expected_result ∈
      semantic_search c3_portfolio c3_guideline c3_sim none 10 1 ∧
    (c3_expected_result.guideline ∈ c3_guideline ∧
      c3_expected_result.guideline.embedding.isSome = true ∧
      (1 : ℚ) ≤ c3_expected_result.similarity) := by
  have h := C3_semantic_search_contract c3_portfolio c3_guideline c3_sim none
    10 1
  have hout : semantic_search c3_portfolio c3_guideline c3_sim none 10 1 =
      [c3_expected_result] := by rfl
  have hmem : c3_expected_result ∈
      semantic_search c3_portfolio c3_guideline c3_sim none 10 1 := by
    rw [hout]; exact List.mem_singleton_self _
  exact ⟨h.1, hmem, h.2.1 _ hmem⟩

/-! ### C1 - transactional replace on re-ingestion -/

/-- A guideline INSERT succeeds when no stored row collides on the
composite key and the referenced document exists. -/
theorem ingest_one_guideline_ok (db : Database) (pid doc_id : String)
    (g : GuidelineInput)
    (hdup : ∀ r ∈ db.guideline, r.portfolio_id = pid → r.rule_id ≠ g.rule_id)
    (hdoc : ∃ r ∈ db.document, r.doc_id = doc_id) :
    ingest_one_guideline db pid doc_id g =
      Except.ok { db with guideline := db.guideline ++ [g.toRow pid doc_id] } := by
  have h1 : db.guideline.any
      (fun r => r.portfolio_id = pid ∧ r.rule_id = g.rule_id) = false := by
    rw [List.any_eq_false]
    intro r hr
    simp only [decide_eq_true_eq, not_and]
    intro hp
    exact hdup r hr hp
  have h2 : db.document.any (fun r => r.doc_id = doc_id) = true := by
    rcases hdoc with ⟨r, hr, hd⟩
    rw [List.any_eq_true]
    exact ⟨r, hr, by simp [hd]⟩
  unfold ingest_one_guideline
  simp [h1, h2]
  exact hdup

/-- The guideline INSERT loop succeeds and appends exactly the rows of
its input when the input rule ids are distinct and collide with no
stored row of the target portfolio. -/
theorem ingest_guidelines_ok (pid doc_id : String)
    (gs : List GuidelineInput) (db : Database)
    (hdoc : ∃ r ∈ db.document, r.doc_id = doc_id)
    (hnd : (gs.map GuidelineInput.rule_id).Nodup)
    (hfresh : ∀ r ∈ db.guideline, r.portfolio_id = pid →
      r.rule_id ∉ gs.map GuidelineInput.rule_id) :
    ingest_guidelines db pid doc_id gs =
      Except.ok { db with guideline :=
        db.guideline ++ gs.map (fun g => g.toRow pid doc_id) } := by
  induction gs generalizing db with
  | nil =>
    rw [List.map_nil, List.append_nil]
    rfl
  | cons g gs ih =>
    have hstep := ingest_one_guideline_ok db pid doc_id g
      (fun r hr hp he => hfresh r hr hp (by simp [he]))
      hdoc
    have hnd' : (gs.map GuidelineInput.rule_id).Nodup :=
      (List.nodup_cons.mp (by simpa using hnd)).2
    have hhead : g.rule_id ∉ gs.map GuidelineInput.rule_id :=
      (List.nodup_cons.mp (by simpa using hnd)).1
    have hfresh' : ∀ r ∈ db.guideline ++ [g.toRow pid doc_id],
        r.portfolio_id = pid → r.rule_id ∉ gs.map GuidelineInput.rule_id := by
      intro r hr hp
      rcases List.mem_append.mp hr with h | h
      · intro hm
        exact hfresh r h hp (by simp [hm])
      · have hrg : r = g.toRow pid doc_id := by simpa using h
        rw [hrg]
        exact hhead
    have htail := ih { db with guideline := db.guideline ++ [g.toRow pid doc_id] }
      hdoc hnd' hfresh'
    have hfinal : (Except.ok { db with guideline :=
        (db.guideline ++ [g.toRow pid doc_id] ++
          List.map (fun g => g.toRow pid doc_id) gs) } :
          Except String Database) =
        Except.ok { db with guideline := (db.guideline ++
          List.map (fun g => g.toRow pid doc_id) (g :: gs)) } := by
      rw [List.map_cons, List.append_assoc]
      rfl
    unfold ingest_guidelines at htail ⊢
    rw [List.foldlM_cons, hstep]
    exact htail.trans hfinal

/-- The portfolio INSERT succeeds when the id is free. -/
theorem ingest_portfolio_ok (db : Database) (data : PersistData)
    (h : db.portfolio.any (fun r => r.portfolio_id = data.portfolio_id) = false) :
    ingest_portfolio db data =
      Except.ok { db with portfolio := db.portfolio ++
        [{ portfolio_id := data.portfolio_id,
           portfolio_name := data.portfolio_name }] } := by
  unfold ingest_portfolio
  simp [h]

/-- The document INSERT succeeds when the doc id is free and the
portfolio row exists. -/
theorem ingest_document_ok (db : Database) (data : PersistData)
    (digest : String)
    (h1 : db.document.any (fun r => r.doc_id = data.doc_id) = false)
    (h2 : db.portfolio.any (fun r => r.portfolio_id = data.portfolio_id) = true) :
    ingest_document db data digest =
      Except.ok { db with document := db.document ++
        [{ doc_id := data.doc_id, portfolio_id := data.portfolio_id,
           doc_name := data.doc_name, doc_date := data.doc_date,
           human_readable_digest := digest }] } := by
  unfold ingest_document
  simp [h1, h2]

/-- After the cascading delete, no row of any of the three tables
carries the deleted portfolio id. -/
theorem delete_portfolio_cascade_clears (db : Database) (pid : String) :
    (db.delete_portfolio_cascade pid).portfolio.any
      (fun r => r.portfolio_id = pid) = false ∧
    (∀ r ∈ (db.delete_portfolio_cascade pid).document, r.portfolio_id ≠ pid) ∧
    (∀ r ∈ (db.delete_portfolio_cascade pid).guideline, r.portfolio_id ≠ pid) := by
  refine ⟨?_, ?_, ?_⟩
  · rw [List.any_eq_false]
    intro r hr
    have := (List.mem_filter.mp hr).2
    simpa using this
  · intro r hr
    have := (List.mem_filter.mp hr).2
    simpa using this
  · intro r hr
    have := (List.mem_filter.mp hr).2
    simpa using this

/-- C1: persisting data for a portfolio that already has rows first
deletes all of, and only, that portfolio's rows and then inserts the
new portfolio, document and guideline rows in the same transaction: the
call succeeds with `was_reingested = true`, the stored guidelines of
that portfolio are afterwards exactly the newly ingested ones (no
duplicates, no leftovers), rows of other portfolios are untouched, and
the portfolio and document tables hold exactly the new row for that
portfolio. -/
theorem C1_reingest_replaces_portfolio_data (db : Database)
    (data : PersistData) (digest : String)
    (hprev : db.portfolio.any (fun r => r.portfolio_id = data.portfolio_id) = true)
    (hnd : (data.guidelines.map GuidelineInput.rule_id).Nodup)
    (hdocfree : ∀ d ∈ db.document, d.doc_id = data.doc_id →
      d.portfolio_id = data.portfolio_id) :
    (persist_guidelines_from_data db data digest).1.status = "success" ∧
    (persist_guidelines_from_data db data digest).1.was_reingested = some true ∧
    (persist_guidelines_from_data db data digest).2.guideline.filter
        (fun r => r.portfolio_id = data.portfolio_id) =
      data.guidelines.map (fun g => g.toRow data.portfolio_id data.doc_id) ∧
    (persist_guidelines_from_data db data digest).2.guideline.filter
        (fun r => !(r.portfolio_id = data.portfolio_id : Bool)) =
      db.guideline.filter
        (fun r => !(r.portfolio_id = data.portfolio_id : Bool)) ∧
    (persist_guidelines_from_data db data digest).2.document.filter
        (fun r => r.portfolio_id = data.portfolio_id) =
      [{ doc_id := data.doc_id, portfolio_id := data.portfolio_id,
         doc_name := data.doc_name, doc_date := data.doc_date,
         human_readable_digest := digest }] ∧
    (persist_guidelines_from_data db data digest).2.portfolio.filter
        (fun r => r.portfolio_id = data.portfolio_id) =
      [{ portfolio_id := data.portfolio_id,
         portfolio_name := data.portfolio_name }] := by
  obtain ⟨hc1, hc2, hc3⟩ := delete_portfolio_cascade_clears db data.portfolio_id
  have h0 : delete_portfolio_if_exists db data.portfolio_id =
      (true, db.delete_portfolio_cascade data.portfolio_id) := by
    unfold delete_portfolio_if_exists
    rw [if_pos hprev]
  have h1 := ingest_portfolio_ok (db.delete_portfolio_cascade data.portfolio_id)
    data hc1
  have hd1 : (db.delete_portfolio_cascade data.portfolio_id).document.any
      (fun r => r.doc_id = data.doc_id) = false := by
    rw [List.any_eq_false]
    intro r hr
    simp only [decide_eq_true_eq]
    intro hd
    exact hc2 r hr (hdocfree r (List.mem_of_mem_filter hr) hd)
  have hd2 : ({ db.delete_portfolio_cascade data.portfolio_id with
      portfolio := (db.delete_portfolio_cascade data.portfolio_id).portfolio ++
        [{ portfolio_id := data.portfolio_id,
           portfolio_name := data.portfolio_name }] } : Database).portfolio.any
      (fun r => r.portfolio_id = data.portfolio_id) = true := by
    rw [List.any_eq_true]
    exact ⟨{ portfolio_id := data.portfolio_id,
             portfolio_name := data.portfolio_name },
      List.mem_append_right _ (List.mem_singleton_self _), by simp⟩
  have h2 := ingest_document_ok
    ({ db.delete_portfolio_cascade data.portfolio_id with
       portfolio := (db.delete_portfolio_cascade data.portfolio_id).portfolio ++
         [{ portfolio_id := data.portfolio_id,
            portfolio_name := data.portfolio_name }] } : Database)
    data digest hd1 hd2
  have h3 := ingest_guidelines_ok data.portfolio_id data.doc_id data.guidelines
    ({ db.delete_portfolio_cascade data.portfolio_id with
       portfolio := (db.delete_portfolio_cascade data.portfolio_id).portfolio ++
         [{ portfolio_id := data.portfolio_id,
            portfolio_name := data.portfolio_name }],
       document := (db.delete_portfolio_cascade data.portfolio_id).document ++
         [{ doc_id := data.doc_id, portfolio_id := data.portfolio_id,
            doc_name := data.doc_name, doc_date := data.doc_date,
            human_readable_digest := digest }] } : Database)
    ⟨{ doc_id := data.doc_id, portfolio_id := data.portfolio_id,
       doc_name := data.doc_name, doc_date := data.doc_date,
       human_readable_digest := digest },
      List.mem_append_right _ (List.mem_singleton_self _), rfl⟩
    hnd
    (fun r hr hp => absurd hp (hc3 r hr))
  have htxn : persist_txn db data digest =
      (true, Except.ok
        ({ db.delete_portfolio_cascade data.portfolio_id with
           portfolio :=
             (db.delete_portfolio_cascade data.portfolio_id).portfolio ++
               [{ portfolio_id := data.portfolio_id,
                  portfolio_name := data.portfolio_name }],
           document :=
             (db.delete_portfolio_cascade data.portfolio_id).document ++
               [{ doc_id := data.doc_id, portfolio_id := data.portfolio_id,
                  doc_name := data.doc_name, doc_date := data.doc_date,
                  human_readable_digest := digest }],
           guideline :=
             (db.delete_portfolio_cascade data.portfolio_id).guideline ++
               data.guidelines.map
                 (fun g => g.toRow data.portfolio_id data.doc_id) } :
          Database)) := by
    unfold persist_txn
    rw [h0]
    show (true,
      ingest_portfolio (db.delete_portfolio_cascade data.portfolio_id) data >>=
        fun db2 => ingest_document db2 data digest >>= fun db3 =>
          ingest_guidelines db3 data.portfolio_id data.doc_id data.guidelines) = _
    rw [h1]
    show (true,
      ingest_document
        ({ db.delete_portfolio_cascade data.portfolio_id with
           portfolio :=
             (db.delete_portfolio_cascade data.portfolio_id).portfolio ++
               [{ portfolio_id := data.portfolio_id,
                  portfolio_name := data.portfolio_name }] } : Database)
        data digest >>= fun db3 =>
          ingest_guidelines db3 data.portfolio_id data.doc_id data.guidelines) = _
    rw [h2]
    show (true,
      ingest_guidelines
        ({ db.delete_portfolio_cascade data.portfolio_id with
           portfolio :=
             (db.delete_portfolio_cascade data.portfolio_id).portfolio ++
               [{ portfolio_id := data.portfolio_id,
                  portfolio_name := data.portfolio_name }],
           document :=
             (db.delete_portfolio_cascade data.portfolio_id).document ++
               [{ doc_id := data.doc_id, portfolio_id := data.portfolio_id,
                  doc_name := data.doc_name, doc_date := data.doc_date,
                  human_readable_digest := digest }] } : Database)
        data.portfolio_id data.doc_id data.guidelines) = _
    rw [h3]
  have hmain : persist_guidelines_from_data db data digest =
      ({ status := "success", message := none,
         portfolio_id := some data.portfolio_id,
         doc_id := some data.doc_id,
         ingested_guidelines := some data.guidelines.length,
         was_reingested := some true },
       { db.delete_portfolio_cascade data.portfolio_id with
         portfolio :=
           (db.delete_portfolio_cascade data.portfolio_id).portfolio ++
             [{ portfolio_id := data.portfolio_id,
                portfolio_name := data.portfolio_name }],
         document :=
           (db.delete_portfolio_cascade data.portfolio_id).document ++
             [{ doc_id := data.doc_id, portfolio_id := data.portfolio_id,
                doc_name := data.doc_name, doc_date := data.doc_date,
                human_readable_digest := digest }],
         guideline :=
           (db.delete_portfolio_cascade data.portfolio_id).guideline ++
             data.guidelines.map
               (fun g => g.toRow data.portfolio_id data.doc_id) }) := by
    unfold persist_guidelines_from_data
    rw [htxn]
  rw [hmain]
  refine ⟨rfl, rfl, ?_, ?_, ?_, ?_⟩
  · show ((db.guideline.filter
        (fun r => !(r.portfolio_id = data.portfolio_id : Bool)) ++
        data.guidelines.map
          (fun g => g.toRow data.portfolio_id data.doc_id)).filter
        (fun r => r.portfolio_id = data.portfolio_id)) = _
    rw [List.filter_append]
    have hA : (db.guideline.filter
        (fun r => !(r.portfolio_id = data.portfolio_id : Bool))).filter
        (fun r => r.portfolio_id = data.portfolio_id) = [] := by
      rw [List.filter_eq_nil_iff]
      intro a ha
      have h := (List.mem_filter.mp ha).2
      simp only [Bool.not_eq_eq_eq_not, Bool.not_true, decide_eq_false_iff_not]
        at h
      simpa using h
    have hB : (data.guidelines.map
        (fun g => g.toRow data.portfolio_id data.doc_id)).filter
        (fun r => r.portfolio_id = data.portfolio_id) =
        data.guidelines.map (fun g => g.toRow data.portfolio_id data.doc_id) := by
      rw [List.filter_eq_self]
      intro a ha
      rcases List.mem_map.mp ha with ⟨g, hg, rfl⟩
      simp [GuidelineInput.toRow]
    rw [hA, hB, List.nil_append]
  · show ((db.guideline.filter
        (fun r => !(r.portfolio_id = data.portfolio_id : Bool)) ++
        data.guidelines.map
          (fun g => g.toRow data.portfolio_id data.doc_id)).filter
        (fun r => !(r.portfolio_id = data.portfolio_id : Bool))) = _
    rw [List.filter_append]
    have hA : (db.guideline.filter
        (fun r => !(r.portfolio_id = data.portfolio_id : Bool))).filter
        (fun r => !(r.portfolio_id = data.portfolio_id : Bool)) =
        db.guideline.filter
          (fun r => !(r.portfolio_id = data.portfolio_id : Bool)) := by
      rw [List.filter_eq_self]
      intro a ha
      exact (List.mem_filter.mp ha).2
    have hB : (data.guidelines.map
        (fun g => g.toRow data.portfolio_id data.doc_id)).filter
        (fun r => !(r.portfolio_id = data.portfolio_id : Bool)) = [] := by
      rw [List.filter_eq_nil_iff]
      intro a ha
      rcases List.mem_map.mp ha with ⟨g, hg, rfl⟩
      simp [GuidelineInput.toRow]
    rw [hA, hB, List.append_nil]
  · show ((db.document.filter
        (fun r : DocumentRow => !(r.portfolio_id = data.portfolio_id : Bool)) ++
        ([{ doc_id := data.doc_id, portfolio_id := data.portfolio_id,
            doc_name := data.doc_name, doc_date := data.doc_date,
            human_readable_digest := digest }] : List DocumentRow)).filter
        (fun r : DocumentRow => r.portfolio_id = data.portfolio_id)) = _
    rw [List.filter_append]
    have hA : (db.document.filter
        (fun r => !(r.portfolio_id = data.portfolio_id : Bool))).filter
        (fun r => r.portfolio_id = data.portfolio_id) = [] := by
      rw [List.filter_eq_nil_iff]
      intro a ha
      have h := (List.mem_filter.mp ha).2
      simp only [Bool.not_eq_eq_eq_not, Bool.not_true, decide_eq_false_iff_not]
        at h
      simpa using h
    rw [hA, List.nil_append]
    simp
  · show ((db.portfolio.filter
        (fun r : PortfolioRow => !(r.portfolio_id = data.portfolio_id : Bool)) ++
        ([{ portfolio_id := data.portfolio_id,
            portfolio_name := data.portfolio_name }] : List PortfolioRow)).filter
        (fun r : PortfolioRow => r.portfolio_id = data.portfolio_id)) = _
    rw [List.filter_append]
    have hA : (db.portfolio.filter
        (fun r => !(r.portfolio_id = data.portfolio_id : Bool))).filter
        (fun r => r.portfolio_id = data.portfolio_id) = [] := by
      rw [List.filter_eq_nil_iff]
      intro a ha
      have h := (List.mem_filter.mp ha).2
      simp only [Bool.not_eq_eq_eq_not, Bool.not_true, decide_eq_false_iff_not]
        at h
      simpa using h
    rw [hA, List.nil_append]
    simp

/-- Witness for C1: re-ingesting portfolio `P1` (already holding two
guidelines from a 2019 document) with a 2020 document and two new
guidelines succeeds, reports `was_reingested = true`, and leaves
exactly the two new guideline rows for `P1`. -/
theorem C1_reingest_replaces_portfolio_data_witness :
    (persist_guidelines_from_data c1_db c1_data "v2").1.status = "success" ∧
    (persist_guidelines_from_data c1_db c1_data "v2").1.was_reingested =
      some true ∧
    (persist_guidelines_from_data c1_db c1_data "v2").2.guideline.filter
        (fun r => r.portfolio_id = c1_data.portfolio_id) =
      c1_data.guidelines.map
        (fun g => g.toRow c1_data.portfolio_id c1_data.doc_id) := by
  have h := C1_reingest_replaces_portfolio_data c1_db c1_data "v2"
    (by decide) (by decide) (by decide)
  exact ⟨h.1, h.2.1, h.2.2.1⟩
